import Mathlib

/-!
Verification of the decoder components of a style-transfer ViT model
(`src/model/decoders.py`): a `TransformerDecoder` wrapper around stacked
pre-norm attention blocks, and a `CNNDecoder` that reshapes a flattened
token sequence into a spatial grid and upsamples it into an RGB image.

Tensors are shallowly embedded as shape tuples together with total index
functions into `ℚ` (rational values stand in for the floating-point
scalars; transcendental scalar functions such as `exp` and `x ↦ 1/√x`
are abstract parameters).  Out-of-range indices carry irrelevant junk
values, so where it matters, equality of tensor results is stated on
in-range indices only (that is extensional tensor equality).

Fallible framework operations (`Tensor.view` with a mismatched element
count, `Conv2d` applied to an input whose channel count differs from
`in_channels` or whose padded spatial extent is smaller than the kernel)
are modelled with `Option`, mirroring the PyTorch runtime errors.
-/

set_option autoImplicit false

namespace StyleTransfer

/-- A rank-3 tensor (batch, seq, channels): shape plus a total index map. -/
structure Tensor3 where
  n0 : Nat
  n1 : Nat
  n2 : Nat
  data : Nat → Nat → Nat → ℚ

/-- A rank-4 tensor (batch, channels, height, width). -/
structure Tensor4 where
  n0 : Nat
  n1 : Nat
  n2 : Nat
  n3 : Nat
  data : Nat → Nat → Nat → Nat → ℚ

/-- Value at linear (row-major) position `p` of a contiguous rank-3 tensor. -/
def lin3 (x : Tensor3) (p : Nat) : ℚ :=
  x.data (p / (x.n1 * x.n2)) (p / x.n2 % x.n1) (p % x.n2)

/-- The tensor produced by `x.view(a, b, c, d)`: row-major data is shared,
only the shape changes. -/
def viewT (x : Tensor3) (a b c d : Nat) : Tensor4 :=
  ⟨a, b, c, d, fun i j k l => lin3 x (((i * b + j) * c + k) * d + l)⟩

/-- `x.view(a, b, c, d)`: succeeds iff the element counts agree
(PyTorch raises a RuntimeError otherwise). -/
def view3to4 (x : Tensor3) (a b c d : Nat) : Option Tensor4 :=
  if x.n0 * x.n1 * x.n2 = a * b * c * d then some (viewT x a b c d) else none

/-- `x.permute(0, 3, 1, 2)`: move the channel axis in front of the grid. -/
def permute0312 (t : Tensor4) : Tensor4 :=
  ⟨t.n0, t.n3, t.n1, t.n2, fun n c h w => t.data n h w c⟩

/-- `ReLU`: clamp negative values to zero. -/
def relu (q : ℚ) : ℚ := max 0 q

/-- Elementwise `nn.ReLU` on a rank-4 tensor. -/
def relu4 (t : Tensor4) : Tensor4 :=
  ⟨t.n0, t.n1, t.n2, t.n3, fun n c h w => relu (t.data n c h w)⟩

/-- `nn.Upsample(scale_factor=2, mode='nearest')`: each output pixel reads
the input pixel at the halved coordinates. -/
def upsample2 (t : Tensor4) : Tensor4 :=
  ⟨t.n0, t.n1, 2 * t.n2, 2 * t.n3, fun n c h w => t.data n c (h / 2) (w / 2)⟩

/-- Read pixel `(i, j)` of the zero-padded (padding = 1) frame of `t`:
padded coordinate `i` corresponds to input row `i - 1`. -/
def padGet (t : Tensor4) (n c i j : Nat) : ℚ :=
  if 1 ≤ i ∧ i ≤ t.n2 ∧ 1 ≤ j ∧ j ≤ t.n3 then t.data n c (i - 1) (j - 1) else 0

/-- The output of `nn.Conv2d(inC, outC, kernel_size=3, padding=1)` on `t`
(stride 1): a 3×3 stencil over the zero-padded input plus a bias. -/
def convT (outC inC : Nat) (w : Nat → Nat → Nat → Nat → ℚ) (b : Nat → ℚ)
    (t : Tensor4) : Tensor4 :=
  ⟨t.n0, outC, t.n2, t.n3, fun n oc h w' =>
    b oc + ∑ ic ∈ Finset.range inC, ∑ dh ∈ Finset.range 3, ∑ dw ∈ Finset.range 3,
      w oc ic dh dw * padGet t n ic (h + dh) (w' + dw)⟩

/-- `nn.Conv2d(inC, outC, 3, padding=1)` applied to `t`.  PyTorch raises a
RuntimeError when the input channel count differs from `inC`, and when the
padded spatial extent `H + 2` (resp. `W + 2`) is smaller than the kernel
size 3, i.e. when `H = 0` (resp. `W = 0`). -/
def conv2d (outC inC : Nat) (w : Nat → Nat → Nat → Nat → ℚ) (b : Nat → ℚ)
    (t : Tensor4) : Option Tensor4 :=
  if t.n1 = inC ∧ 1 ≤ t.n2 ∧ 1 ≤ t.n3 then some (convT outC inC w b t) else none

@[simp] theorem viewT_n0 (x : Tensor3) (a b c d : Nat) : (viewT x a b c d).n0 = a := rfl

@[simp] theorem viewT_n1 (x : Tensor3) (a b c d : Nat) : (viewT x a b c d).n1 = b := rfl

@[simp] theorem viewT_n2 (x : Tensor3) (a b c d : Nat) : (viewT x a b c d).n2 = c := rfl

@[simp] theorem viewT_n3 (x : Tensor3) (a b c d : Nat) : (viewT x a b c d).n3 = d := rfl

@[simp] theorem permute0312_n0 (t : Tensor4) : (permute0312 t).n0 = t.n0 := rfl

@[simp] theorem permute0312_n1 (t : Tensor4) : (permute0312 t).n1 = t.n3 := rfl

@[simp] theorem permute0312_n2 (t : Tensor4) : (permute0312 t).n2 = t.n1 := rfl

@[simp] theorem permute0312_n3 (t : Tensor4) : (permute0312 t).n3 = t.n2 := rfl

@[simp] theorem relu4_n0 (t : Tensor4) : (relu4 t).n0 = t.n0 := rfl

@[simp] theorem relu4_n1 (t : Tensor4) : (relu4 t).n1 = t.n1 := rfl

@[simp] theorem relu4_n2 (t : Tensor4) : (relu4 t).n2 = t.n2 := rfl

@[simp] theorem relu4_n3 (t : Tensor4) : (relu4 t).n3 = t.n3 := rfl

@[simp] theorem upsample2_n0 (t : Tensor4) : (upsample2 t).n0 = t.n0 := rfl

@[simp] theorem upsample2_n1 (t : Tensor4) : (upsample2 t).n1 = t.n1 := rfl

@[simp] theorem upsample2_n2 (t : Tensor4) : (upsample2 t).n2 = 2 * t.n2 := rfl

@[simp] theorem upsample2_n3 (t : Tensor4) : (upsample2 t).n3 = 2 * t.n3 := rfl

@[simp] theorem convT_n0 (outC inC : Nat) (w : Nat → Nat → Nat → Nat → ℚ)
    (b : Nat → ℚ) (t : Tensor4) : (convT outC inC w b t).n0 = t.n0 := rfl

@[simp] theorem convT_n1 (outC inC : Nat) (w : Nat → Nat → Nat → Nat → ℚ)
    (b : Nat → ℚ) (t : Tensor4) : (convT outC inC w b t).n1 = outC := rfl

@[simp] theorem convT_n2 (outC inC : Nat) (w : Nat → Nat → Nat → Nat → ℚ)
    (b : Nat → ℚ) (t : Tensor4) : (convT outC inC w b t).n2 = t.n2 := rfl

@[simp] theorem convT_n3 (outC inC : Nat) (w : Nat → Nat → Nat → Nat → ℚ)
    (b : Nat → ℚ) (t : Tensor4) : (convT outC inC w b t).n3 = t.n3 := rfl

/-- The `CNNDecoder` module: configuration, the grid dimensions stored by
`__init__`, and the learned parameters of its three convolutions. -/
structure CNNDecoder where
  embed_dim : Nat
  img_height : Nat
  img_width : Nat
  grid_h : Nat
  grid_w : Nat
  w1 : Nat → Nat → Nat → Nat → ℚ
  b1 : Nat → ℚ
  w2 : Nat → Nat → Nat → Nat → ℚ
  b2 : Nat → ℚ
  w3 : Nat → Nat → Nat → Nat → ℚ
  b3 : Nat → ℚ

/-- `CNNDecoder.__init__(embed_dim, img_height, img_width)`: stores the
image size and derives `grid_h = img_height // 8`, `grid_w = img_width // 8`
by truncating integer division; no validation is performed, construction
always succeeds. -/
def mkCNNDecoder (embed_dim img_height img_width : Nat)
    (w1 : Nat → Nat → Nat → Nat → ℚ) (b1 : Nat → ℚ)
    (w2 : Nat → Nat → Nat → Nat → ℚ) (b2 : Nat → ℚ)
    (w3 : Nat → Nat → Nat → Nat → ℚ) (b3 : Nat → ℚ) : CNNDecoder :=
  ⟨embed_dim, img_height, img_width, img_height / 8, img_width / 8,
    w1, b1, w2, b2, w3, b3⟩

/-- `self.layer1 = Sequential(Conv2d(e, e, 3, padding=1), ReLU, Upsample(2))`. -/
def CNNDecoder.layer1 (d : CNNDecoder) (t : Tensor4) : Option Tensor4 :=
  (conv2d d.embed_dim d.embed_dim d.w1 d.b1 t).map fun u => upsample2 (relu4 u)

/-- `self.layer2 = Sequential(Conv2d(e, e, 3, padding=1), ReLU, Upsample(2))`. -/
def CNNDecoder.layer2 (d : CNNDecoder) (t : Tensor4) : Option Tensor4 :=
  (conv2d d.embed_dim d.embed_dim d.w2 d.b2 t).map fun u => upsample2 (relu4 u)

/-- `self.layer3 = Sequential(Conv2d(e, 3, 3, padding=1), ReLU, Upsample(2))`. -/
def CNNDecoder.layer3 (d : CNNDecoder) (t : Tensor4) : Option Tensor4 :=
  (conv2d 3 d.embed_dim d.w3 d.b3 t).map fun u => upsample2 (relu4 u)

/-- Lines 99–104 of `decoders.py`: `x.view(batch, grid_h, grid_w, C)`
followed by `x.permute(0, 3, 1, 2)`. -/
def reshapeTok (d : CNNDecoder) (x : Tensor3) : Option Tensor4 :=
  (view3to4 x x.n0 d.grid_h d.grid_w x.n2).map permute0312

/-- `CNNDecoder.forward`: reshape the token sequence to a channel-first
grid, then apply the three convolutional upsampling layers. -/
def CNNDecoder.forward (d : CNNDecoder) (x : Tensor3) : Option Tensor4 :=
  (reshapeTok d x).bind fun g =>
    (d.layer1 g).bind fun y1 =>
      (d.layer2 y1).bind fun y2 => d.layer3 y2

/-- The condition under which all runtime checks inside
`CNNDecoder.forward` succeed: the `view` element-count check, the channel
match of the first convolution, and the kernel-size checks of the
convolutions. -/
def goodIn (d : CNNDecoder) (x : Tensor3) : Prop :=
  x.n0 * x.n1 * x.n2 = x.n0 * d.grid_h * d.grid_w * x.n2 ∧
    x.n2 = d.embed_dim ∧ 1 ≤ d.grid_h ∧ 1 ≤ d.grid_w

instance (d : CNNDecoder) (x : Tensor3) : Decidable (goodIn d x) := by
  unfold goodIn; infer_instance

/-- The pure data transformation of one decoder stage:
convolution, then `ReLU`, then 2× nearest-neighbor upsample. -/
def stageT (outC inC : Nat) (wgt : Nat → Nat → Nat → Nat → ℚ) (b : Nat → ℚ)
    (t : Tensor4) : Tensor4 :=
  upsample2 (relu4 (convT outC inC wgt b t))

@[simp] theorem stageT_n0 (outC inC : Nat) (w : Nat → Nat → Nat → Nat → ℚ)
    (b : Nat → ℚ) (t : Tensor4) : (stageT outC inC w b t).n0 = t.n0 := rfl

@[simp] theorem stageT_n1 (outC inC : Nat) (w : Nat → Nat → Nat → Nat → ℚ)
    (b : Nat → ℚ) (t : Tensor4) : (stageT outC inC w b t).n1 = outC := rfl

@[simp] theorem stageT_n2 (outC inC : Nat) (w : Nat → Nat → Nat → Nat → ℚ)
    (b : Nat → ℚ) (t : Tensor4) : (stageT outC inC w b t).n2 = 2 * t.n2 := rfl

@[simp] theorem stageT_n3 (outC inC : Nat) (w : Nat → Nat → Nat → Nat → ℚ)
    (b : Nat → ℚ) (t : Tensor4) : (stageT outC inC w b t).n3 = 2 * t.n3 := rfl

/-- The tensor produced by a successful run of `CNNDecoder.forward`. -/
def cnnOut (d : CNNDecoder) (x : Tensor3) : Tensor4 :=
  stageT 3 d.embed_dim d.w3 d.b3
    (stageT d.embed_dim d.embed_dim d.w2 d.b2
      (stageT d.embed_dim d.embed_dim d.w1 d.b1
        (permute0312 (viewT x x.n0 d.grid_h d.grid_w x.n2))))

@[simp] theorem cnnOut_n0 (d : CNNDecoder) (x : Tensor3) :
    (cnnOut d x).n0 = x.n0 := rfl

@[simp] theorem cnnOut_n1 (d : CNNDecoder) (x : Tensor3) :
    (cnnOut d x).n1 = 3 := rfl

@[simp] theorem cnnOut_n2 (d : CNNDecoder) (x : Tensor3) :
    (cnnOut d x).n2 = 2 * (2 * (2 * d.grid_h)) := by
  simp [cnnOut]

@[simp] theorem cnnOut_n3 (d : CNNDecoder) (x : Tensor3) :
    (cnnOut d x).n3 = 2 * (2 * (2 * d.grid_w)) := by
  simp [cnnOut]

theorem forward_eq_some (d : CNNDecoder) (x : Tensor3) (h : goodIn d x) :
    CNNDecoder.forward d x = some (cnnOut d x) := by
  obtain ⟨hv, hc, hgh, hgw⟩ := h
  unfold CNNDecoder.forward reshapeTok view3to4
  rw [if_pos hv]
  unfold CNNDecoder.layer1 CNNDecoder.layer2 CNNDecoder.layer3 conv2d
  simp only [Option.map_some', Option.some_bind]
  rw [if_pos]
  · simp only [Option.map_some', Option.some_bind]
    rw [if_pos]
    · simp only [Option.map_some', Option.some_bind]
      rw [if_pos]
      · simp only [Option.map_some']
        rfl
      · exact ⟨rfl, by show 1 ≤ 2 * (2 * d.grid_h); omega,
          by show 1 ≤ 2 * (2 * d.grid_w); omega⟩
    · exact ⟨rfl, by show 1 ≤ 2 * d.grid_h; omega, by show 1 ≤ 2 * d.grid_w; omega⟩
  · exact ⟨hc, hgh, hgw⟩

theorem forward_eq_none (d : CNNDecoder) (x : Tensor3) (h : ¬ goodIn d x) :
    CNNDecoder.forward d x = none := by
  unfold CNNDecoder.forward reshapeTok view3to4
  by_cases hv : x.n0 * x.n1 * x.n2 = x.n0 * d.grid_h * d.grid_w * x.n2
  · rw [if_pos hv]
    unfold CNNDecoder.layer1 conv2d
    simp only [Option.map_some', Option.some_bind]
    rw [if_neg]
    · simp
    · intro hc
      exact h ⟨hv, hc.1, hc.2.1, hc.2.2⟩
  · rw [if_neg hv]
    simp

@[simp] theorem mk_embed_dim (e h w : Nat) (w1 : Nat → Nat → Nat → Nat → ℚ)
    (b1 : Nat → ℚ) (w2 : Nat → Nat → Nat → Nat → ℚ) (b2 : Nat → ℚ)
    (w3 : Nat → Nat → Nat → Nat → ℚ) (b3 : Nat → ℚ) :
    (mkCNNDecoder e h w w1 b1 w2 b2 w3 b3).embed_dim = e := rfl

@[simp] theorem mk_img_height (e h w : Nat) (w1 : Nat → Nat → Nat → Nat → ℚ)
    (b1 : Nat → ℚ) (w2 : Nat → Nat → Nat → Nat → ℚ) (b2 : Nat → ℚ)
    (w3 : Nat → Nat → Nat → Nat → ℚ) (b3 : Nat → ℚ) :
    (mkCNNDecoder e h w w1 b1 w2 b2 w3 b3).img_height = h := rfl

@[simp] theorem mk_img_width (e h w : Nat) (w1 : Nat → Nat → Nat → Nat → ℚ)
    (b1 : Nat → ℚ) (w2 : Nat → Nat → Nat → Nat → ℚ) (b2 : Nat → ℚ)
    (w3 : Nat → Nat → Nat → Nat → ℚ) (b3 : Nat → ℚ) :
    (mkCNNDecoder e h w w1 b1 w2 b2 w3 b3).img_width = w := rfl

@[simp] theorem mk_grid_h (e h w : Nat) (w1 : Nat → Nat → Nat → Nat → ℚ)
    (b1 : Nat → ℚ) (w2 : Nat → Nat → Nat → Nat → ℚ) (b2 : Nat → ℚ)
    (w3 : Nat → Nat → Nat → Nat → ℚ) (b3 : Nat → ℚ) :
    (mkCNNDecoder e h w w1 b1 w2 b2 w3 b3).grid_h = h / 8 := rfl

@[simp] theorem mk_grid_w (e h w : Nat) (w1 : Nat → Nat → Nat → Nat → ℚ)
    (b1 : Nat → ℚ) (w2 : Nat → Nat → Nat → Nat → ℚ) (b2 : Nat → ℚ)
    (w3 : Nat → Nat → Nat → Nat → ℚ) (b3 : Nat → ℚ) :
    (mkCNNDecoder e h w w1 b1 w2 b2 w3 b3).grid_w = w / 8 := rfl

theorem rowcol_lt {j k gh gw : Nat} (hj : j < gh) (hk : k < gw) :
    j * gw + k < gh * gw := by
  have h1 : j * gw + k < (j + 1) * gw := by rw [Nat.succ_mul]; omega
  have h2 : (j + 1) * gw ≤ gh * gw := Nat.mul_le_mul_right gw hj
  omega

/-- The row-major `view` places sequence position `j * gw + k` at grid cell
`(j, k)`: value-level characterization of `x.view(batch, gh, gw, C)`. -/
theorem viewT_data (x : Tensor3) (gh gw : Nat) (hn : x.n1 = gh * gw)
    (i j k l : Nat) (hj : j < gh) (hk : k < gw) (hl : l < x.n2) :
    (viewT x x.n0 gh gw x.n2).data i j k l = x.data i (j * gw + k) l := by
  have hc : 0 < x.n2 := by omega
  have hrc : j * gw + k < gh * gw := rowcol_lt hj hk
  have hD : 0 < x.n1 * x.n2 := by
    rw [hn]
    exact Nat.mul_pos (by omega) hc
  show x.data
      ((((i * gh + j) * gw + k) * x.n2 + l) / (x.n1 * x.n2))
      ((((i * gh + j) * gw + k) * x.n2 + l) / x.n2 % x.n1)
      ((((i * gh + j) * gw + k) * x.n2 + l) % x.n2)
    = x.data i (j * gw + k) l
  have hp : ((i * gh + j) * gw + k) * x.n2 + l
      = ((j * gw + k) * x.n2 + l) + (x.n1 * x.n2) * i := by
    rw [hn]; ring
  have hq : ((i * gh + j) * gw + k) * x.n2 + l
      = l + x.n2 * ((i * gh + j) * gw + k) := by ring
  have hr : (j * gw + k) * x.n2 + l < x.n1 * x.n2 := by
    have h1 : (j * gw + k) * x.n2 + l < (j * gw + k + 1) * x.n2 := by
      rw [Nat.succ_mul]; omega
    have h2 : (j * gw + k + 1) * x.n2 ≤ (gh * gw) * x.n2 :=
      Nat.mul_le_mul_right x.n2 hrc
    rw [hn]; omega
  have hA : (((i * gh + j) * gw + k) * x.n2 + l) / (x.n1 * x.n2) = i := by
    rw [hp, Nat.add_mul_div_left _ _ hD, Nat.div_eq_of_lt hr, Nat.zero_add]
  have hB : (((i * gh + j) * gw + k) * x.n2 + l) / x.n2 % x.n1 = j * gw + k := by
    rw [hq, Nat.add_mul_div_left _ _ hc, Nat.div_eq_of_lt hl, Nat.zero_add]
    have hs : (i * gh + j) * gw + k = (j * gw + k) + x.n1 * i := by
      rw [hn]; ring
    rw [hs, Nat.add_mul_mod_self_left, Nat.mod_eq_of_lt (hn ▸ hrc)]
  have hC : (((i * gh + j) * gw + k) * x.n2 + l) % x.n2 = l := by
    rw [hq, Nat.add_mul_mod_self_left, Nat.mod_eq_of_lt hl]
  rw [hA, hB, hC]

/-- C10: the reshape from the flattened token sequence to the 2D grid is
row-major.  When the token count equals `grid_h * grid_w`, the
view-and-permute step succeeds, the token at sequence index `i` lands at
grid row `i / grid_w` and column `i % grid_w`, and conversely grid cell
`(r, k)` holds exactly the token at sequence index `r * grid_w + k`, so
no token value is reordered, duplicated or dropped. -/
theorem reshape_row_major (d : CNNDecoder) (x : Tensor3)
    (hn : x.n1 = d.grid_h * d.grid_w) :
    ∃ v, reshapeTok d x = some v ∧
      (∀ n i l, i < x.n1 → l < x.n2 →
        v.data n l (i / d.grid_w) (i % d.grid_w) = x.data n i l) ∧
      (∀ n r k l, r < d.grid_h → k < d.grid_w → l < x.n2 →
        v.data n l r k = x.data n (r * d.grid_w + k) l) := by
  refine ⟨permute0312 (viewT x x.n0 d.grid_h d.grid_w x.n2), ?_, ?_, ?_⟩
  · unfold reshapeTok view3to4
    rw [if_pos (by rw [hn]; ring)]
    rfl
  · intro n i l hi hl
    have hgw : 0 < d.grid_w := by
      rcases Nat.eq_zero_or_pos d.grid_w with h0 | hpos
      · rw [h0, Nat.mul_zero] at hn; omega
      · exact hpos
    have hj : i / d.grid_w < d.grid_h := by
      rw [Nat.div_lt_iff_lt_mul hgw]
      calc i < x.n1 := hi
        _ = d.grid_h * d.grid_w := hn
        _ = d.grid_h * d.grid_w := rfl
    have hk : i % d.grid_w < d.grid_w := Nat.mod_lt _ hgw
    have hidx : i / d.grid_w * d.grid_w + i % d.grid_w = i := by
      rw [Nat.mul_comm]
      exact Nat.div_add_mod i d.grid_w
    show (viewT x x.n0 d.grid_h d.grid_w x.n2).data n (i / d.grid_w) (i % d.grid_w) l
      = x.data n i l
    rw [viewT_data x d.grid_h d.grid_w hn n (i / d.grid_w) (i % d.grid_w) l hj hk hl, hidx]
  · intro n r k l hr hk hl
    exact viewT_data x d.grid_h d.grid_w hn n r k l hr hk hl

/-- Zero-initialized convolution weights, used for concrete instances. -/
def zw : Nat → Nat → Nat → Nat → ℚ := fun _ _ _ _ => 0

/-- Zero-initialized bias, used for concrete instances. -/
def zb : Nat → ℚ := fun _ => 0

def c10d : CNNDecoder := mkCNNDecoder 1 16 8 zw zb zw zb zw zb

def c10x : Tensor3 := ⟨1, 2, 1, fun _ i _ => (i : ℚ)⟩

theorem reshape_row_major_witness :
    ∃ v, reshapeTok c10d c10x = some v ∧
      (∀ n i l, i < c10x.n1 → l < c10x.n2 →
        v.data n l (i / c10d.grid_w) (i % c10d.grid_w) = c10x.data n i l) ∧
      (∀ n r k l, r < c10d.grid_h → k < c10d.grid_w → l < c10x.n2 →
        v.data n l r k = c10x.data n (r * c10d.grid_w + k) l) :=
  reshape_row_major c10d c10x (by decide)

/-- C9: for every constructed `CNNDecoder` and every input its forward
accepts, the output shape is `(batch, 3, 8 * (img_height / 8),
8 * (img_width / 8))`: the stored image size is not consulted by
`forward`, so a non-divisible `img_height`/`img_width` silently yields an
image smaller than requested rather than an error. -/
theorem forward_shape_truncated (e h w : Nat)
    (w1 : Nat → Nat → Nat → Nat → ℚ) (b1 : Nat → ℚ)
    (w2 : Nat → Nat → Nat → Nat → ℚ) (b2 : Nat → ℚ)
    (w3 : Nat → Nat → Nat → Nat → ℚ) (b3 : Nat → ℚ)
    (x : Tensor3) (y : Tensor4)
    (heq : (mkCNNDecoder e h w w1 b1 w2 b2 w3 b3).forward x = some y) :
    y.n0 = x.n0 ∧ y.n1 = 3 ∧ y.n2 = 8 * (h / 8) ∧ y.n3 = 8 * (w / 8) := by
  by_cases hg : goodIn (mkCNNDecoder e h w w1 b1 w2 b2 w3 b3) x
  · rw [forward_eq_some _ _ hg] at heq
    obtain rfl : y = cnnOut (mkCNNDecoder e h w w1 b1 w2 b2 w3 b3) x :=
      (Option.some_inj.mp heq).symm
    refine ⟨rfl, rfl, ?_, ?_⟩
    · show 2 * (2 * (2 * (h / 8))) = 8 * (h / 8); ring
    · show 2 * (2 * (2 * (w / 8))) = 8 * (w / 8); ring
  · rw [forward_eq_none _ _ hg] at heq
    exact absurd heq (by simp)

def c9d : CNNDecoder := mkCNNDecoder 1 8 8 zw zb zw zb zw zb

def c9x : Tensor3 := ⟨1, 1, 1, fun _ _ _ => 0⟩

theorem forward_shape_truncated_witness :
    (cnnOut c9d c9x).n0 = c9x.n0 ∧ (cnnOut c9d c9x).n1 = 3 ∧
      (cnnOut c9d c9x).n2 = 8 * (8 / 8) ∧ (cnnOut c9d c9x).n3 = 8 * (8 / 8) :=
  forward_shape_truncated 1 8 8 zw zb zw zb zw zb c9x (cnnOut c9d c9x) rfl

/-- C1 (code evaluated at the failing input): `CNNDecoder.__init__` does
not validate divisibility by 8.  With `img_height = 100` construction
succeeds, silently storing the truncated `grid_h = 12`, and a forward pass
on the matching 12-token grid returns a 96-pixel-high image instead of the
requested 100 — no ConfigurationError is ever raised. -/
theorem construction_silently_truncates :
    (mkCNNDecoder 1 100 8 zw zb zw zb zw zb).grid_h = 12 ∧
      ∃ y, (mkCNNDecoder 1 100 8 zw zb zw zb zw zb).forward
          ⟨1, 12, 1, fun _ _ _ => 0⟩ = some y ∧
        y.n2 = 96 ∧
        y.n2 ≠ (mkCNNDecoder 1 100 8 zw zb zw zb zw zb).img_height := by
  refine ⟨rfl, cnnOut _ _, forward_eq_some _ _ (by decide), rfl, by decide⟩

/-- C2 (amended): for `img_height` and `img_width` both divisible by 8 and
positive, any `embed_dim` and any batch size, feeding a feature sequence of
shape `(batch, (img_height/8) * (img_width/8), embed_dim)` yields an output
of shape exactly `(batch, 3, img_height, img_width)`. -/
theorem forward_output_shape (e h w : Nat)
    (w1 : Nat → Nat → Nat → Nat → ℚ) (b1 : Nat → ℚ)
    (w2 : Nat → Nat → Nat → Nat → ℚ) (b2 : Nat → ℚ)
    (w3 : Nat → Nat → Nat → Nat → ℚ) (b3 : Nat → ℚ)
    (x : Tensor3) (h8 : 8 ∣ h) (w8 : 8 ∣ w) (hp : 0 < h) (wp : 0 < w)
    (hn1 : x.n1 = (h / 8) * (w / 8)) (hn2 : x.n2 = e) :
    ∃ y, (mkCNNDecoder e h w w1 b1 w2 b2 w3 b3).forward x = some y ∧
      y.n0 = x.n0 ∧ y.n1 = 3 ∧ y.n2 = h ∧ y.n3 = w := by
  have hgh : 0 < h / 8 := Nat.div_pos (Nat.le_of_dvd hp h8) (by omega)
  have hgw : 0 < w / 8 := Nat.div_pos (Nat.le_of_dvd wp w8) (by omega)
  have hg : goodIn (mkCNNDecoder e h w w1 b1 w2 b2 w3 b3) x := by
    refine ⟨?_, ?_, ?_, ?_⟩
    · simp only [mk_grid_h, mk_grid_w]
      rw [hn1]; ring
    · simpa using hn2
    · simpa using hgh
    · simpa using hgw
  refine ⟨cnnOut _ x, forward_eq_some _ _ hg, rfl, rfl, ?_, ?_⟩
  · have hmh : 8 * (h / 8) = h := Nat.mul_div_cancel' h8
    show 2 * (2 * (2 * (h / 8))) = h
    omega
  · have hmw : 8 * (w / 8) = w := Nat.mul_div_cancel' w8
    show 2 * (2 * (2 * (w / 8))) = w
    omega

def c2wd : CNNDecoder := mkCNNDecoder 512 256 256 zw zb zw zb zw zb

def c2wx : Tensor3 := ⟨2, 1024, 512, fun _ _ _ => 0⟩

theorem forward_output_shape_witness :
    ∃ y, c2wd.forward c2wx = some y ∧
      y.n0 = c2wx.n0 ∧ y.n1 = 3 ∧ y.n2 = 256 ∧ y.n3 = 256 :=
  forward_output_shape 512 256 256 zw zb zw zb zw zb c2wx
    (by decide) (by decide) (by decide) (by decide) (by decide) (by decide)

def c2d : CNNDecoder := mkCNNDecoder 1 0 8 zw zb zw zb zw zb

def c2x : Tensor3 := ⟨1, 0, 1, fun _ _ _ => 0⟩

/-- C2 counterexample to the unrestricted claim: `img_height = 0` is
divisible by 8 and `c2x` has the prescribed input shape
`(1, (0/8) * (8/8), 1)`, yet the forward pass fails (the first convolution
rejects a zero-height grid) instead of returning a `(1, 3, 0, 8)` image. -/
theorem forward_output_shape_cex :
    8 ∣ c2d.img_height ∧ 8 ∣ c2d.img_width ∧
      c2x.n1 = c2d.grid_h * c2d.grid_w ∧ c2x.n2 = c2d.embed_dim ∧
      CNNDecoder.forward c2d c2x = none :=
  ⟨⟨0, rfl⟩, ⟨1, rfl⟩, rfl, rfl, forward_eq_none _ _ (by decide)⟩

/-- C3 (amended): for every input with a positive batch size and positive
channel count whose token count differs from `grid_h * grid_w`, the forward
pass fails (the `view` raises a shape error); no automatic reshape, padding
or truncation is attempted. -/
theorem forward_rejects_mismatch (d : CNNDecoder) (x : Tensor3)
    (hb : 0 < x.n0) (hc : 0 < x.n2) (hmm : x.n1 ≠ d.grid_h * d.grid_w) :
    CNNDecoder.forward d x = none := by
  apply forward_eq_none
  rintro ⟨hv, -, -, -⟩
  apply hmm
  have h1 : x.n0 * x.n1 * x.n2 = x.n0 * (d.grid_h * d.grid_w) * x.n2 :=
    hv.trans (by ring)
  have h2 : x.n0 * x.n1 = x.n0 * (d.grid_h * d.grid_w) :=
    Nat.eq_of_mul_eq_mul_right hc h1
  exact Nat.eq_of_mul_eq_mul_left hb h2

def c3d : CNNDecoder := mkCNNDecoder 1 8 8 zw zb zw zb zw zb

def c3x : Tensor3 := ⟨1, 5, 1, fun _ _ _ => 0⟩

theorem forward_rejects_mismatch_witness :
    CNNDecoder.forward c3d c3x = none :=
  forward_rejects_mismatch c3d c3x (by decide) (by decide) (by decide)

def c3bx : Tensor3 := ⟨0, 5, 1, fun _ _ _ => 0⟩

/-- C3 counterexample to the unrestricted claim: with an empty batch, a
token count of 5 differs from `grid_h * grid_w = 1`, yet `view` succeeds
(both sides have zero elements) and the forward pass returns a tensor
rather than failing. -/
theorem forward_rejects_mismatch_cex :
    c3bx.n1 ≠ c3d.grid_h * c3d.grid_w ∧
      (CNNDecoder.forward c3d c3bx).isSome = true := by
  refine ⟨by decide, ?_⟩
  rw [forward_eq_some _ _ (by decide)]
  rfl

/-- One upsampling stage as the spec words it: a 3×3 same-padding
convolution, then a nonlinearity, then a 2× nearest-neighbor upsample. -/
def specStage (inC outC : Nat) (w : Nat → Nat → Nat → Nat → ℚ) (b : Nat → ℚ)
    (t : Tensor4) : Option Tensor4 :=
  (conv2d outC inC w b t).map fun u => upsample2 (relu4 u)

/-- C4: `CNNDecoder.forward` is exactly the reshape step followed by three
stages in order — stage 1 and stage 2 map `embed_dim` channels to
`embed_dim` channels, stage 3 maps `embed_dim` channels to 3 — each stage
being convolution → nonlinearity → 2× upsample. -/
theorem forward_is_three_stages (d : CNNDecoder) (x : Tensor3) :
    CNNDecoder.forward d x =
      (reshapeTok d x).bind fun g =>
        (specStage d.embed_dim d.embed_dim d.w1 d.b1 g).bind fun u1 =>
          (specStage d.embed_dim d.embed_dim d.w2 d.b2 u1).bind fun u2 =>
            specStage d.embed_dim 3 d.w3 d.b3 u2 := rfl

/-- C6: every element of a successfully decoded image is non-negative:
stage 3 applies the value-clamping nonlinearity before the final 2×
nearest-neighbor upsample, and that upsample only copies existing values. -/
theorem forward_nonneg (d : CNNDecoder) (x : Tensor3) (y : Tensor4)
    (heq : CNNDecoder.forward d x = some y) (n c h w : Nat) :
    0 ≤ y.data n c h w := by
  by_cases hg : goodIn d x
  · rw [forward_eq_some _ _ hg] at heq
    obtain rfl : y = cnnOut d x := (Option.some_inj.mp heq).symm
    show 0 ≤ relu _
    exact le_max_left 0 _
  · rw [forward_eq_none _ _ hg] at heq
    exact absurd heq (by simp)

def c6d : CNNDecoder := mkCNNDecoder 1 8 8
  (fun _ _ _ _ => 1) (fun _ => -5) (fun _ _ _ _ => 1) (fun _ => -5)
  (fun _ _ _ _ => 1) (fun _ => -5)

def c6x : Tensor3 := ⟨1, 1, 1, fun _ _ _ => -3⟩

def c6dflt : Tensor4 := ⟨0, 0, 0, 0, fun _ _ _ _ => 0⟩

theorem forward_nonneg_witness :
    0 ≤ ((CNNDecoder.forward c6d c6x).getD c6dflt).data 0 0 0 0 :=
  forward_nonneg c6d c6x ((CNNDecoder.forward c6d c6x).getD c6dflt) rfl 0 0 0 0

/-! ### Batch-axis permutation machinery for the spatial decoder -/

/-- Gather the batch axis of a rank-3 tensor along `σ`. -/
def permB3 (σ : Nat → Nat) (x : Tensor3) : Tensor3 :=
  ⟨x.n0, x.n1, x.n2, fun n j k => x.data (σ n) j k⟩

/-- Gather the batch axis of a rank-4 tensor along `σ`. -/
def permB4 (σ : Nat → Nat) (t : Tensor4) : Tensor4 :=
  ⟨t.n0, t.n1, t.n2, t.n3, fun n c h w => t.data (σ n) c h w⟩

@[simp] theorem permB3_n0 (σ : Nat → Nat) (x : Tensor3) : (permB3 σ x).n0 = x.n0 := rfl

@[simp] theorem permB3_n1 (σ : Nat → Nat) (x : Tensor3) : (permB3 σ x).n1 = x.n1 := rfl

@[simp] theorem permB3_n2 (σ : Nat → Nat) (x : Tensor3) : (permB3 σ x).n2 = x.n2 := rfl

@[simp] theorem permB3_data (σ : Nat → Nat) (x : Tensor3) (n j k : Nat) :
    (permB3 σ x).data n j k = x.data (σ n) j k := rfl

@[simp] theorem permB4_n0 (σ : Nat → Nat) (t : Tensor4) : (permB4 σ t).n0 = t.n0 := rfl

@[simp] theorem permB4_n1 (σ : Nat → Nat) (t : Tensor4) : (permB4 σ t).n1 = t.n1 := rfl

@[simp] theorem permB4_n2 (σ : Nat → Nat) (t : Tensor4) : (permB4 σ t).n2 = t.n2 := rfl

@[simp] theorem permB4_n3 (σ : Nat → Nat) (t : Tensor4) : (permB4 σ t).n3 = t.n3 := rfl

@[simp] theorem permB4_data (σ : Nat → Nat) (t : Tensor4) (n c h w : Nat) :
    (permB4 σ t).data n c h w = t.data (σ n) c h w := rfl

/-- Extensional equality of rank-4 tensors: same shape and the same values
on all in-range indices (out-of-range junk is not part of a tensor). -/
def eqv4 (y y' : Tensor4) : Prop :=
  y.n0 = y'.n0 ∧ y.n1 = y'.n1 ∧ y.n2 = y'.n2 ∧ y.n3 = y'.n3 ∧
    ∀ n c h w, n < y.n0 → c < y.n1 → h < y.n2 → w < y.n3 →
      y.data n c h w = y'.data n c h w

/-- Lift a relation to `Option`: both absent, or both present and related. -/
def optEqv {α : Type} (r : α → α → Prop) : Option α → Option α → Prop
  | none, none => True
  | some a, some b => r a b
  | _, _ => False

/-- In-range pointwise agreement propagates through a same-padding
convolution, at fixed batch indices, to agreement at every index. -/
theorem convT_congr (outC inC : Nat) (wgt : Nat → Nat → Nat → Nat → ℚ)
    (b : Nat → ℚ) (t t' : Tensor4) (n n' : Nat)
    (h2 : t.n2 = t'.n2) (h3 : t.n3 = t'.n3)
    (hd : ∀ c i j, c < inC → i < t.n2 → j < t.n3 → t.data n c i j = t'.data n' c i j) :
    ∀ oc h w, (convT outC inC wgt b t).data n oc h w
      = (convT outC inC wgt b t').data n' oc h w := by
  intro oc h w
  show b oc + _ = b oc + _
  congr 1
  refine Finset.sum_congr rfl fun ic hic => ?_
  refine Finset.sum_congr rfl fun dh _ => ?_
  refine Finset.sum_congr rfl fun dw _ => ?_
  congr 1
  unfold padGet
  rw [← h2, ← h3]
  by_cases hin : 1 ≤ h + dh ∧ h + dh ≤ t.n2 ∧ 1 ≤ w + dw ∧ w + dw ≤ t.n3
  · rw [if_pos hin, if_pos hin]
    exact hd ic _ _ (Finset.mem_range.mp hic) (by omega) (by omega)
  · rw [if_neg hin, if_neg hin]

/-- One full decoder stage (convolution, nonlinearity, 2× upsample)
also propagates in-range agreement to agreement at every index. -/
theorem stage_congr (outC inC : Nat) (wgt : Nat → Nat → Nat → Nat → ℚ)
    (b : Nat → ℚ) (t t' : Tensor4) (n n' : Nat)
    (h2 : t.n2 = t'.n2) (h3 : t.n3 = t'.n3)
    (hd : ∀ c i j, c < inC → i < t.n2 → j < t.n3 → t.data n c i j = t'.data n' c i j) :
    ∀ c h w, (stageT outC inC wgt b t).data n c h w
      = (stageT outC inC wgt b t').data n' c h w := by
  intro c h w
  show relu ((convT outC inC wgt b t).data n c (h / 2) (w / 2))
    = relu ((convT outC inC wgt b t').data n' c (h / 2) (w / 2))
  rw [convT_congr outC inC wgt b t t' n n' h2 h3 hd]

/-- The first stage applied to the reshaped input of `x`. -/
def stage1T (d : CNNDecoder) (x : Tensor3) : Tensor4 :=
  stageT d.embed_dim d.embed_dim d.w1 d.b1
    (permute0312 (viewT x x.n0 d.grid_h d.grid_w x.n2))

/-- The second stage applied on top of the first. -/
def stage2T (d : CNNDecoder) (x : Tensor3) : Tensor4 :=
  stageT d.embed_dim d.embed_dim d.w2 d.b2 (stage1T d x)

/-- A forward output value at batch index `n` depends only on the batch
slice `x.data n` of the input, provided the token/grid contract holds. -/
theorem cnnOut_data_congr (d : CNNDecoder) (x x' : Tensor3) (n n' : Nat)
    (hx1 : x.n1 = d.grid_h * d.grid_w) (hx1' : x'.n1 = d.grid_h * d.grid_w)
    (hx2 : x.n2 = d.embed_dim) (hx2' : x'.n2 = d.embed_dim)
    (hd : ∀ j k, j < x.n1 → k < x.n2 → x.data n j k = x'.data n' j k) :
    ∀ c h w, (cnnOut d x).data n c h w = (cnnOut d x').data n' c h w := by
  have base : ∀ c i j, c < d.embed_dim → i < d.grid_h → j < d.grid_w →
      (permute0312 (viewT x x.n0 d.grid_h d.grid_w x.n2)).data n c i j
        = (permute0312 (viewT x' x'.n0 d.grid_h d.grid_w x'.n2)).data n' c i j := by
    intro c i j hc hi hj
    show (viewT x x.n0 d.grid_h d.grid_w x.n2).data n i j c
      = (viewT x' x'.n0 d.grid_h d.grid_w x'.n2).data n' i j c
    rw [viewT_data x d.grid_h d.grid_w hx1 n i j c hi hj (by omega),
      viewT_data x' d.grid_h d.grid_w hx1' n' i j c hi hj (by omega)]
    exact hd _ c (by rw [hx1]; exact rowcol_lt hi hj) (by omega)
  have s1 : ∀ c i j, (stage1T d x).data n c i j = (stage1T d x').data n' c i j :=
    stage_congr d.embed_dim d.embed_dim d.w1 d.b1
      (permute0312 (viewT x x.n0 d.grid_h d.grid_w x.n2))
      (permute0312 (viewT x' x'.n0 d.grid_h d.grid_w x'.n2)) n n' rfl rfl base
  have s2 : ∀ c i j, (stage2T d x).data n c i j = (stage2T d x').data n' c i j :=
    stage_congr d.embed_dim d.embed_dim d.w2 d.b2 (stage1T d x) (stage1T d x')
      n n' rfl rfl (fun c i j _ _ _ => s1 c i j)
  exact stage_congr 3 d.embed_dim d.w3 d.b3 (stage2T d x) (stage2T d x')
    n n' rfl rfl (fun c i j _ _ _ => s2 c i j)

/-- With `embed_dim = 0` the first convolution reads no input channels, so
all forward output values coincide across inputs and batch indices. -/
theorem cnnOut_data_congr0 (d : CNNDecoder) (x x' : Tensor3) (n n' : Nat)
    (he : d.embed_dim = 0) :
    ∀ c h w, (cnnOut d x).data n c h w = (cnnOut d x').data n' c h w := by
  have base : ∀ c i j, c < d.embed_dim → i < d.grid_h → j < d.grid_w →
      (permute0312 (viewT x x.n0 d.grid_h d.grid_w x.n2)).data n c i j
        = (permute0312 (viewT x' x'.n0 d.grid_h d.grid_w x'.n2)).data n' c i j := by
    intro c i j hc _ _
    exact absurd hc (by omega)
  have s1 : ∀ c i j, (stage1T d x).data n c i j = (stage1T d x').data n' c i j :=
    stage_congr d.embed_dim d.embed_dim d.w1 d.b1
      (permute0312 (viewT x x.n0 d.grid_h d.grid_w x.n2))
      (permute0312 (viewT x' x'.n0 d.grid_h d.grid_w x'.n2)) n n' rfl rfl base
  have s2 : ∀ c i j, (stage2T d x).data n c i j = (stage2T d x').data n' c i j :=
    stage_congr d.embed_dim d.embed_dim d.w2 d.b2 (stage1T d x) (stage1T d x')
      n n' rfl rfl (fun c i j _ _ _ => s1 c i j)
  exact stage_congr 3 d.embed_dim d.w3 d.b3 (stage2T d x) (stage2T d x')
    n n' rfl rfl (fun c i j _ _ _ => s2 c i j)

set_option maxHeartbeats 1000000 in
/-- Batch-permutation equivariance of the spatial decoder: permuting the
batch, running forward, and applying the inverse permutation gives the
same tensor (extensional equality), and failure is preserved both ways. -/
theorem batch_perm_cnn (σ σ' : Nat → Nat) (hinv : ∀ n, σ (σ' n) = n)
    (d : CNNDecoder) (x : Tensor3) :
    optEqv eqv4 ((CNNDecoder.forward d (permB3 σ x)).map (permB4 σ'))
      (CNNDecoder.forward d x) := by
  by_cases hg : goodIn d x
  · have hg' : goodIn d (permB3 σ x) := hg
    rw [forward_eq_some _ _ hg, forward_eq_some _ _ hg']
    simp only [Option.map_some']
    show eqv4 (permB4 σ' (cnnOut d (permB3 σ x))) (cnnOut d x)
    refine ⟨by simp, by simp, by simp, by simp, ?_⟩
    intro n c h w hn hc hh hw
    rw [permB4_n0, cnnOut_n0, permB3_n0] at hn
    rw [permB4_data]
    rcases Nat.eq_zero_or_pos d.embed_dim with he | hepos
    · exact cnnOut_data_congr0 d (permB3 σ x) x (σ' n) n he c h w
    · obtain ⟨hv, hx2, -, -⟩ := hg
      have hx1 : x.n1 = d.grid_h * d.grid_w := by
        have h1 : x.n0 * x.n1 * x.n2 = x.n0 * (d.grid_h * d.grid_w) * x.n2 :=
          hv.trans (by ring)
        have h2 : x.n0 * x.n1 = x.n0 * (d.grid_h * d.grid_w) :=
          Nat.eq_of_mul_eq_mul_right (by omega) h1
        exact Nat.eq_of_mul_eq_mul_left (by omega) h2
      refine cnnOut_data_congr d (permB3 σ x) x (σ' n) n hx1 hx1 hx2 hx2 ?_ c h w
      intro j k hj hk
      show x.data (σ (σ' n)) j k = x.data n j k
      rw [hinv n]
  · have hg' : ¬ goodIn d (permB3 σ x) := hg
    rw [forward_eq_none _ _ hg, forward_eq_none _ _ hg']
    exact trivial

/-! ### The sequence decoder: `nn.TransformerDecoder` with pre-norm layers -/

/-- Abstract scalar functions of the numerical substrate: `exp` models the
exponential used by softmax, `rsqrt` models `x ↦ 1 / √x` as used by the
attention scaling and by layer normalization. -/
structure ScalarOps where
  exp : ℚ → ℚ
  rsqrt : ℚ → ℚ

/-- Learned parameters of one `nn.MultiheadAttention` (separate query, key,
value projections and the output projection, each with a bias). -/
structure AttnParams where
  wq : Nat → Nat → ℚ
  bq : Nat → ℚ
  wk : Nat → Nat → ℚ
  bk : Nat → ℚ
  wv : Nat → Nat → ℚ
  bv : Nat → ℚ
  wo : Nat → Nat → ℚ
  bo : Nat → ℚ

/-- Learned parameters of one `nn.TransformerDecoderLayer`: three layer
norms, self- and cross-attention, and the two feed-forward linears. -/
structure LayerParams where
  ln1g : Nat → ℚ
  ln1b : Nat → ℚ
  ln2g : Nat → ℚ
  ln2b : Nat → ℚ
  ln3g : Nat → ℚ
  ln3b : Nat → ℚ
  sa : AttnParams
  ca : AttnParams
  w1 : Nat → Nat → ℚ
  b1 : Nat → ℚ
  w2 : Nat → Nat → ℚ
  b2 : Nat → ℚ

/-- Per-layer dropout noise: (site, batch, three position indices). -/
def SiteNoise : Type := Nat → Nat → Nat → Nat → Nat → Bool

/-- Noise for the whole stack: layer index, then a `SiteNoise`. -/
def StackNoise : Type := Nat → Nat → Nat → Nat → Nat → Nat → Bool

/-- `nn.Linear(dIn, dOut)` on a batch of sequences: `y = x Aᵀ + b`. -/
def linB (dIn dOut : Nat) (W : Nat → Nat → ℚ) (b : Nat → ℚ) (x : Tensor3) : Tensor3 :=
  ⟨x.n0, x.n1, dOut, fun n j k =>
    b k + ∑ u ∈ Finset.range dIn, x.data n j u * W k u⟩

/-- `nn.LayerNorm(d, eps=1e-5)`: normalize each position over the channel
axis, then scale and shift. -/
def lnB (d : Nat) (ops : ScalarOps) (g b : Nat → ℚ) (x : Tensor3) : Tensor3 :=
  ⟨x.n0, x.n1, x.n2, fun n j k =>
    (x.data n j k - (∑ u ∈ Finset.range d, x.data n j u) / d) *
        ops.rsqrt ((∑ u ∈ Finset.range d,
          (x.data n j u - (∑ v ∈ Finset.range d, x.data n j v) / d) ^ 2) / d
          + 1 / 100000) * g k
      + b k⟩

/-- Elementwise addition (residual connection). -/
def addB (x y : Tensor3) : Tensor3 :=
  ⟨x.n0, x.n1, x.n2, fun n j k => x.data n j k + y.data n j k⟩

/-- Elementwise `ReLU` on a batch of sequences. -/
def relu3 (x : Tensor3) : Tensor3 :=
  ⟨x.n0, x.n1, x.n2, fun n j k => relu (x.data n j k)⟩

/-- `nn.Dropout(p)`: in training mode each element is zeroed where the
Bernoulli noise fires and rescaled by `1 / (1 - p)` otherwise; in
evaluation mode the input passes through unchanged. -/
def dropB (training : Bool) (p : ℚ) (nz : Nat → Nat → Nat → Bool) (x : Tensor3) : Tensor3 :=
  ⟨x.n0, x.n1, x.n2, fun n j k =>
    if training then (if nz n j k then 0 else x.data n j k / (1 - p))
    else x.data n j k⟩

/-- Look up an optional attention mask (`True` = attention disallowed). -/
def maskAt (m : Option (Nat → Nat → Bool)) (i j : Nat) : Bool :=
  m.elim false fun f => f i j

/-- Look up an optional key-padding mask (batch index, key position). -/
def kpmAt (m : Option (Nat → Nat → Bool)) (n j : Nat) : Bool :=
  m.elim false fun f => f n j

/-- The per-head channel width of multi-head attention. -/
def headDim (d nhead : Nat) : Nat := d / nhead

/-- The masked, unnormalized attention weight of head `h` between query
position `i` of `q` and key position `j` of `kv` (batch element `n`):
softmax numerator `exp(score / √head_dim)`, zero where the attention mask
or the key-padding mask disallows the pair (matching the additive `-inf`
masking before softmax). -/
def attnWgt (ops : ScalarOps) (d nhead : Nat) (ap : AttnParams)
    (q kv : Tensor3) (mask kpm : Option (Nat → Nat → Bool))
    (n h i j : Nat) : ℚ :=
  if maskAt mask i j || kpmAt kpm n j then 0
  else ops.exp ((∑ u ∈ Finset.range (headDim d nhead),
      (linB d d ap.wq ap.bq q).data n i (h * headDim d nhead + u) *
        (linB d d ap.wk ap.bk kv).data n j (h * headDim d nhead + u)) *
    ops.rsqrt (headDim d nhead : ℚ))

/-- The softmax-normalized attention coefficient. -/
def attnCoef (ops : ScalarOps) (d nhead : Nat) (ap : AttnParams)
    (q kv : Tensor3) (mask kpm : Option (Nat → Nat → Bool))
    (n h i j : Nat) : ℚ :=
  attnWgt ops d nhead ap q kv mask kpm n h i j /
    ∑ j2 ∈ Finset.range kv.n1, attnWgt ops d nhead ap q kv mask kpm n h i j2

/-- The attention coefficient after the attention dropout. -/
def attnCoefD (ops : ScalarOps) (d nhead : Nat) (ap : AttnParams)
    (dropP : ℚ) (training : Bool) (nzA : Nat → Nat → Nat → Nat → Bool)
    (q kv : Tensor3) (mask kpm : Option (Nat → Nat → Bool))
    (n h i j : Nat) : ℚ :=
  if training then
    (if nzA n h i j then 0
     else attnCoef ops d nhead ap q kv mask kpm n h i j / (1 - dropP))
  else attnCoef ops d nhead ap q kv mask kpm n h i j

/-- The attention context: weighted combination of projected values,
channel `c` served by head `c / head_dim`. -/
def attnCtx (ops : ScalarOps) (d nhead : Nat) (ap : AttnParams)
    (dropP : ℚ) (training : Bool) (nzA : Nat → Nat → Nat → Nat → Bool)
    (q kv : Tensor3) (mask kpm : Option (Nat → Nat → Bool)) : Tensor3 :=
  ⟨q.n0, q.n1, d, fun n i c =>
    ∑ j ∈ Finset.range kv.n1,
      attnCoefD ops d nhead ap dropP training nzA q kv mask kpm
          n (c / headDim d nhead) i j *
        (linB d d ap.wv ap.bv kv).data n j c⟩

/-- `nn.MultiheadAttention(d, nhead, batch_first=True)` applied to query
`q` and key/value source `kv`: in-projections, per-head scaled dot-product
softmax with masking and attention dropout, then the out-projection. -/
def mhaB (ops : ScalarOps) (d nhead : Nat) (ap : AttnParams) (dropP : ℚ)
    (training : Bool) (nzA : Nat → Nat → Nat → Nat → Bool)
    (q kv : Tensor3) (mask kpm : Option (Nat → Nat → Bool)) : Tensor3 :=
  linB d d ap.wo ap.bo
    (attnCtx ops d nhead ap dropP training nzA q kv mask kpm)

/-- Slice one dropout site out of a layer's noise (three-index form). -/
def nzSlice3 (nz : SiteNoise) (s : Nat) : Nat → Nat → Nat → Bool :=
  fun n j k => nz s n j k 0

/-- Slice one dropout site out of a layer's noise (four-index form, for the
attention dropout). -/
def nzSlice4 (nz : SiteNoise) (s : Nat) : Nat → Nat → Nat → Nat → Bool :=
  fun n h i j => nz s n h i j

/-- `_sa_block` of `nn.TransformerDecoderLayer`:
`dropout1(self_attn(u, u, u, attn_mask, key_padding_mask))` for `u = norm1(x)`. -/
def saBlock (ops : ScalarOps) (d nhead : Nat) (p : ℚ) (training : Bool)
    (nz : SiteNoise) (lp : LayerParams) (x : Tensor3)
    (tm kT : Option (Nat → Nat → Bool)) : Tensor3 :=
  dropB training p (nzSlice3 nz 1)
    (mhaB ops d nhead lp.sa p training (nzSlice4 nz 0)
      (lnB d ops lp.ln1g lp.ln1b x) (lnB d ops lp.ln1g lp.ln1b x) tm kT)

/-- `_mha_block` of `nn.TransformerDecoderLayer` (cross-attention):
`dropout2(multihead_attn(norm2(x), mem, mem, memory_mask, memory_key_padding_mask))`. -/
def caBlock (ops : ScalarOps) (d nhead : Nat) (p : ℚ) (training : Bool)
    (nz : SiteNoise) (lp : LayerParams) (x mem : Tensor3)
    (mm kM : Option (Nat → Nat → Bool)) : Tensor3 :=
  dropB training p (nzSlice3 nz 3)
    (mhaB ops d nhead lp.ca p training (nzSlice4 nz 2)
      (lnB d ops lp.ln2g lp.ln2b x) mem mm kM)

/-- `_ff_block` of `nn.TransformerDecoderLayer`:
`dropout3(linear2(dropout(relu(linear1(norm3(x))))))`. -/
def ffBlock (ops : ScalarOps) (d ff : Nat) (p : ℚ) (training : Bool)
    (nz : SiteNoise) (lp : LayerParams) (x : Tensor3) : Tensor3 :=
  dropB training p (nzSlice3 nz 5)
    (linB ff d lp.w2 lp.b2
      (dropB training p (nzSlice3 nz 4)
        (relu3 (linB d ff lp.w1 lp.b1 (lnB d ops lp.ln3g lp.ln3b x)))))

/-- One `nn.TransformerDecoderLayer` forward with `norm_first=True`:
`x = x + sa_block(norm1(x)); x = x + mha_block(norm2(x), mem); x = x + ff_block(norm3(x))`. -/
def layerB (ops : ScalarOps) (d nhead ff : Nat) (p : ℚ) (training : Bool)
    (nz : SiteNoise) (lp : LayerParams) (x mem : Tensor3)
    (tm mm kT kM : Option (Nat → Nat → Bool)) : Tensor3 :=
  let x1 := addB x (saBlock ops d nhead p training nz lp x tm kT)
  let x2 := addB x1 (caBlock ops d nhead p training nz lp x1 mem mm kM)
  addB x2 (ffBlock ops d ff p training nz lp x2)

/-- Sequential application of the stacked decoder layers
(`for layer in self.layers: x = layer(x, memory, ...)`; the final `norm`
of `nn.TransformerDecoder` is `None` here and thus omitted). -/
def applyLayers (ops : ScalarOps) (d nhead ff : Nat) (p : ℚ) (training : Bool)
    (mem : Tensor3) (tm mm kT kM : Option (Nat → Nat → Bool)) :
    List LayerParams → StackNoise → Tensor3 → Tensor3
  | [], _, x => x
  | lp :: rest, nz, x =>
      applyLayers ops d nhead ff p training mem tm mm kT kM rest
        (fun l => nz (l + 1))
        (layerB ops d nhead ff p training (nz 0) lp x mem tm mm kT kM)

/-- The `TransformerDecoder` module of `decoders.py`: configuration plus
the per-layer parameters of the stacked `nn.TransformerDecoderLayer`s. -/
structure TransformerDecoder where
  d_model : Nat
  nhead : Nat
  dim_feedforward : Nat
  dropout : ℚ
  layers : List LayerParams

/-- `TransformerDecoder.__init__`: `nn.MultiheadAttention` requires
`embed_dim % num_heads == 0` (and a positive head count); the single given
layer is deep-copied `n_layers` times by `nn.TransformerDecoder`. -/
def mkTransformerDecoder (d_model nhead dim_feedforward : Nat) (dropout : ℚ)
    (n_layers : Nat) (lp : LayerParams) : Option TransformerDecoder :=
  if 0 < nhead ∧ d_model % nhead = 0 then
    some ⟨d_model, nhead, dim_feedforward, dropout, List.replicate n_layers lp⟩
  else none

/-- `TransformerDecoder.forward(target_tokens, memory, masks...)`: checks
that both inputs carry `d_model` channels and matching batch sizes, then
runs the layer stack.  `training` and the dropout noise are explicit. -/
def TransformerDecoder.forward (ops : ScalarOps) (dec : TransformerDecoder)
    (training : Bool) (nz : StackNoise) (tgt mem : Tensor3)
    (tm mm kT kM : Option (Nat → Nat → Bool)) : Option Tensor3 :=
  if tgt.n2 = dec.d_model ∧ mem.n2 = dec.d_model ∧ mem.n0 = tgt.n0 then
    some (applyLayers ops dec.d_model dec.nhead dec.dim_feedforward dec.dropout
      training mem tm mm kT kM dec.layers nz tgt)
  else none

@[simp] theorem layerB_n0 (ops : ScalarOps) (d nhead ff : Nat) (p : ℚ)
    (training : Bool) (nz : SiteNoise) (lp : LayerParams) (x mem : Tensor3)
    (tm mm kT kM : Option (Nat → Nat → Bool)) :
    (layerB ops d nhead ff p training nz lp x mem tm mm kT kM).n0 = x.n0 := rfl

@[simp] theorem layerB_n1 (ops : ScalarOps) (d nhead ff : Nat) (p : ℚ)
    (training : Bool) (nz : SiteNoise) (lp : LayerParams) (x mem : Tensor3)
    (tm mm kT kM : Option (Nat → Nat → Bool)) :
    (layerB ops d nhead ff p training nz lp x mem tm mm kT kM).n1 = x.n1 := rfl

@[simp] theorem layerB_n2 (ops : ScalarOps) (d nhead ff : Nat) (p : ℚ)
    (training : Bool) (nz : SiteNoise) (lp : LayerParams) (x mem : Tensor3)
    (tm mm kT kM : Option (Nat → Nat → Bool)) :
    (layerB ops d nhead ff p training nz lp x mem tm mm kT kM).n2 = x.n2 := rfl

theorem applyLayers_shape (ops : ScalarOps) (d nhead ff : Nat) (p : ℚ)
    (training : Bool) (mem : Tensor3) (tm mm kT kM : Option (Nat → Nat → Bool)) :
    ∀ (L : List LayerParams) (nz : StackNoise) (x : Tensor3),
      (applyLayers ops d nhead ff p training mem tm mm kT kM L nz x).n0 = x.n0 ∧
      (applyLayers ops d nhead ff p training mem tm mm kT kM L nz x).n1 = x.n1 ∧
      (applyLayers ops d nhead ff p training mem tm mm kT kM L nz x).n2 = x.n2 := by
  intro L
  induction L with
  | nil => exact fun nz x => ⟨rfl, rfl, rfl⟩
  | cons lp rest ih =>
      intro nz x
      obtain ⟨h0, h1, h2⟩ := ih (fun l => nz (l + 1))
        (layerB ops d nhead ff p training (nz 0) lp x mem tm mm kT kM)
      exact ⟨by rw [applyLayers, h0, layerB_n0],
        by rw [applyLayers, h1, layerB_n1],
        by rw [applyLayers, h2, layerB_n2]⟩

/-- C5: for every legal pairing of target tokens and memory (matching
`embed_dim = d_model` and matching batch sizes), the sequence decoder
succeeds and its output has exactly the shape of `target_tokens`. -/
theorem sequence_decoder_preserves_shape (ops : ScalarOps)
    (dec : TransformerDecoder) (training : Bool) (nz : StackNoise)
    (tgt mem : Tensor3) (tm mm kT kM : Option (Nat → Nat → Bool))
    (ht : tgt.n2 = dec.d_model) (hm : mem.n2 = dec.d_model)
    (hb : mem.n0 = tgt.n0) :
    ∃ o, TransformerDecoder.forward ops dec training nz tgt mem tm mm kT kM
        = some o ∧
      o.n0 = tgt.n0 ∧ o.n1 = tgt.n1 ∧ o.n2 = tgt.n2 := by
  refine ⟨applyLayers ops dec.d_model dec.nhead dec.dim_feedforward dec.dropout
    training mem tm mm kT kM dec.layers nz tgt, ?_, ?_⟩
  · unfold TransformerDecoder.forward
    rw [if_pos ⟨ht, hm, hb⟩]
  · exact applyLayers_shape ops dec.d_model dec.nhead dec.dim_feedforward
      dec.dropout training mem tm mm kT kM dec.layers nz tgt

def idOps : ScalarOps := ⟨fun q => q, fun q => q⟩

def zeroAttn : AttnParams :=
  ⟨fun _ _ => 0, fun _ => 0, fun _ _ => 0, fun _ => 0,
   fun _ _ => 0, fun _ => 0, fun _ _ => 0, fun _ => 0⟩

def zeroLayer : LayerParams :=
  ⟨fun _ => 1, fun _ => 0, fun _ => 1, fun _ => 0, fun _ => 1, fun _ => 0,
   zeroAttn, zeroAttn, fun _ _ => 0, fun _ => 0, fun _ _ => 0, fun _ => 0⟩

def noNoise : StackNoise := fun _ _ _ _ _ _ => false

def tdSmall : TransformerDecoder := ⟨2, 1, 4, 1 / 10, [zeroLayer]⟩

def tdTgt : Tensor3 := ⟨1, 3, 2, fun _ _ _ => 1⟩

def tdMem : Tensor3 := ⟨1, 5, 2, fun _ _ _ => 2⟩

theorem sequence_decoder_preserves_shape_witness :
    ∃ o, TransformerDecoder.forward idOps tdSmall false noNoise tdTgt tdMem
        none none none none = some o ∧
      o.n0 = tdTgt.n0 ∧ o.n1 = tdTgt.n1 ∧ o.n2 = tdTgt.n2 :=
  sequence_decoder_preserves_shape idOps tdSmall false noNoise tdTgt tdMem
    none none none none rfl rfl rfl

theorem layerB_noise (ops : ScalarOps) (d nhead ff : Nat) (p : ℚ)
    (lp : LayerParams) (x mem : Tensor3) (tm mm kT kM : Option (Nat → Nat → Bool))
    (nz nz' : SiteNoise) :
    layerB ops d nhead ff p false nz lp x mem tm mm kT kM
      = layerB ops d nhead ff p false nz' lp x mem tm mm kT kM := rfl

theorem applyLayers_noise (ops : ScalarOps) (d nhead ff : Nat) (p : ℚ)
    (mem : Tensor3) (tm mm kT kM : Option (Nat → Nat → Bool)) :
    ∀ (L : List LayerParams) (nz nz' : StackNoise) (x : Tensor3),
      applyLayers ops d nhead ff p false mem tm mm kT kM L nz x
        = applyLayers ops d nhead ff p false mem tm mm kT kM L nz' x := by
  intro L
  induction L with
  | nil => intro nz nz' x; rfl
  | cons lp rest ih =>
      intro nz nz' x
      show applyLayers ops d nhead ff p false mem tm mm kT kM rest
          (fun l => nz (l + 1))
          (layerB ops d nhead ff p false (nz 0) lp x mem tm mm kT kM)
        = applyLayers ops d nhead ff p false mem tm mm kT kM rest
          (fun l => nz' (l + 1))
          (layerB ops d nhead ff p false (nz' 0) lp x mem tm mm kT kM)
      rw [layerB_noise ops d nhead ff p lp x mem tm mm kT kM (nz 0) (nz' 0)]
      exact ih (fun l => nz (l + 1)) (fun l => nz' (l + 1)) _

/-- C8: with dropout inactive (evaluation mode) the sequence decoder's
forward pass does not depend on the dropout noise stream: it is a
deterministic function of the parameters and the inputs.  (The spatial
decoder's forward consumes no randomness at all — `CNNDecoder.forward` is
a plain function of the module and the input.) -/
theorem forward_deterministic (ops : ScalarOps) (dec : TransformerDecoder)
    (nz nz' : StackNoise) (tgt mem : Tensor3)
    (tm mm kT kM : Option (Nat → Nat → Bool)) :
    TransformerDecoder.forward ops dec false nz tgt mem tm mm kT kM
      = TransformerDecoder.forward ops dec false nz' tgt mem tm mm kT kM := by
  unfold TransformerDecoder.forward
  by_cases h : tgt.n2 = dec.d_model ∧ mem.n2 = dec.d_model ∧ mem.n0 = tgt.n0
  · rw [if_pos h, if_pos h]
    exact congrArg some (applyLayers_noise ops dec.d_model dec.nhead
      dec.dim_feedforward dec.dropout mem tm mm kT kM dec.layers nz nz' tgt)
  · rw [if_neg h, if_neg h]

/-- Permute the batch axis of a stack noise stream. -/
def permNz (σ : Nat → Nat) (nz : StackNoise) : StackNoise :=
  fun l s n => nz l s (σ n)

/-- Permute the batch axis of a site noise stream. -/
def permSiteNz (σ : Nat → Nat) (nz : SiteNoise) : SiteNoise :=
  fun s n => nz s (σ n)

/-- Permute the batch axis of an optional key-padding mask. -/
def permKpm (σ : Nat → Nat) (m : Option (Nat → Nat → Bool)) :
    Option (Nat → Nat → Bool) :=
  m.map fun f n j => f (σ n) j

/-- Permute the batch axis of a three-index noise function. -/
def permF3 (σ : Nat → Nat) (f : Nat → Nat → Nat → Bool) : Nat → Nat → Nat → Bool :=
  fun n j k => f (σ n) j k

/-- Permute the batch axis of a four-index noise function. -/
def permF4 (σ : Nat → Nat) (f : Nat → Nat → Nat → Nat → Bool) :
    Nat → Nat → Nat → Nat → Bool :=
  fun n h i j => f (σ n) h i j

theorem nzSlice3_perm (σ : Nat → Nat) (nz : SiteNoise) (s : Nat) :
    nzSlice3 (permSiteNz σ nz) s = permF3 σ (nzSlice3 nz s) := rfl

theorem nzSlice4_perm (σ : Nat → Nat) (nz : SiteNoise) (s : Nat) :
    nzSlice4 (permSiteNz σ nz) s = permF4 σ (nzSlice4 nz s) := rfl

theorem linB_perm (dIn dOut : Nat) (W : Nat → Nat → ℚ) (b : Nat → ℚ)
    (σ : Nat → Nat) (x : Tensor3) :
    linB dIn dOut W b (permB3 σ x) = permB3 σ (linB dIn dOut W b x) := rfl

theorem lnB_perm (d : Nat) (ops : ScalarOps) (g b : Nat → ℚ)
    (σ : Nat → Nat) (x : Tensor3) :
    lnB d ops g b (permB3 σ x) = permB3 σ (lnB d ops g b x) := rfl

theorem relu3_perm (σ : Nat → Nat) (x : Tensor3) :
    relu3 (permB3 σ x) = permB3 σ (relu3 x) := rfl

theorem addB_perm (σ : Nat → Nat) (x y : Tensor3) :
    addB (permB3 σ x) (permB3 σ y) = permB3 σ (addB x y) := rfl

theorem dropB_perm (training : Bool) (p : ℚ) (σ : Nat → Nat)
    (f : Nat → Nat → Nat → Bool) (x : Tensor3) :
    dropB training p (permF3 σ f) (permB3 σ x)
      = permB3 σ (dropB training p f x) := rfl

theorem mhaB_perm (ops : ScalarOps) (d nhead : Nat) (ap : AttnParams) (p : ℚ)
    (training : Bool) (σ : Nat → Nat) (f : Nat → Nat → Nat → Nat → Bool)
    (q kv : Tensor3) (mask kpm : Option (Nat → Nat → Bool)) :
    mhaB ops d nhead ap p training (permF4 σ f) (permB3 σ q) (permB3 σ kv)
      mask (permKpm σ kpm)
      = permB3 σ (mhaB ops d nhead ap p training f q kv mask kpm) := by
  cases kpm <;> rfl

theorem saBlock_perm (ops : ScalarOps) (d nhead : Nat) (p : ℚ)
    (training : Bool) (σ : Nat → Nat) (nz : SiteNoise) (lp : LayerParams)
    (x : Tensor3) (tm kT : Option (Nat → Nat → Bool)) :
    saBlock ops d nhead p training (permSiteNz σ nz) lp (permB3 σ x) tm
      (permKpm σ kT)
      = permB3 σ (saBlock ops d nhead p training nz lp x tm kT) := by
  unfold saBlock
  rw [nzSlice3_perm, nzSlice4_perm, lnB_perm, mhaB_perm, dropB_perm]

theorem caBlock_perm (ops : ScalarOps) (d nhead : Nat) (p : ℚ)
    (training : Bool) (σ : Nat → Nat) (nz : SiteNoise) (lp : LayerParams)
    (x mem : Tensor3) (mm kM : Option (Nat → Nat → Bool)) :
    caBlock ops d nhead p training (permSiteNz σ nz) lp (permB3 σ x)
      (permB3 σ mem) mm (permKpm σ kM)
      = permB3 σ (caBlock ops d nhead p training nz lp x mem mm kM) := by
  unfold caBlock
  rw [nzSlice3_perm, nzSlice4_perm, lnB_perm, mhaB_perm, dropB_perm]

theorem ffBlock_perm (ops : ScalarOps) (d ff : Nat) (p : ℚ)
    (training : Bool) (σ : Nat → Nat) (nz : SiteNoise) (lp : LayerParams)
    (x : Tensor3) :
    ffBlock ops d ff p training (permSiteNz σ nz) lp (permB3 σ x)
      = permB3 σ (ffBlock ops d ff p training nz lp x) := by
  unfold ffBlock
  rw [nzSlice3_perm σ nz 5, nzSlice3_perm σ nz 4, lnB_perm, linB_perm,
    relu3_perm, dropB_perm, linB_perm, dropB_perm]

theorem layerB_perm (ops : ScalarOps) (d nhead ff : Nat) (p : ℚ)
    (training : Bool) (lp : LayerParams) (σ : Nat → Nat) (nz : SiteNoise)
    (x mem : Tensor3) (tm mm kT kM : Option (Nat → Nat → Bool)) :
    layerB ops d nhead ff p training (permSiteNz σ nz) lp (permB3 σ x)
      (permB3 σ mem) tm mm (permKpm σ kT) (permKpm σ kM)
      = permB3 σ (layerB ops d nhead ff p training nz lp x mem tm mm kT kM) := by
  unfold layerB
  dsimp only
  rw [saBlock_perm, addB_perm, caBlock_perm, addB_perm, ffBlock_perm, addB_perm]

theorem permB3_inv (σ σ' : Nat → Nat) (hinv : ∀ n, σ (σ' n) = n) (y : Tensor3) :
    permB3 σ' (permB3 σ y) = y := by
  cases y with
  | mk n0 n1 n2 f =>
    show Tensor3.mk n0 n1 n2 (fun n j k => f (σ (σ' n)) j k) = Tensor3.mk n0 n1 n2 f
    refine congrArg (Tensor3.mk n0 n1 n2) ?_
    funext n j k
    rw [hinv n]

theorem applyLayers_perm (ops : ScalarOps) (d nhead ff : Nat) (p : ℚ)
    (training : Bool) (mem : Tensor3) (tm mm kT kM : Option (Nat → Nat → Bool))
    (σ : Nat → Nat) :
    ∀ (L : List LayerParams) (nz : StackNoise) (x : Tensor3),
      applyLayers ops d nhead ff p training (permB3 σ mem) tm mm (permKpm σ kT)
        (permKpm σ kM) L (permNz σ nz) (permB3 σ x)
        = permB3 σ (applyLayers ops d nhead ff p training mem tm mm kT kM L nz x) := by
  intro L
  induction L with
  | nil => intro nz x; rfl
  | cons lp rest ih =>
      intro nz x
      show applyLayers ops d nhead ff p training (permB3 σ mem) tm mm
          (permKpm σ kT) (permKpm σ kM) rest (permNz σ (fun l => nz (l + 1)))
          (layerB ops d nhead ff p training (permSiteNz σ (nz 0)) lp
            (permB3 σ x) (permB3 σ mem) tm mm (permKpm σ kT) (permKpm σ kM))
        = permB3 σ (applyLayers ops d nhead ff p training mem tm mm kT kM rest
            (fun l => nz (l + 1))
            (layerB ops d nhead ff p training (nz 0) lp x mem tm mm kT kM))
      rw [layerB_perm ops d nhead ff p training lp σ (nz 0) x mem tm mm kT kM]
      exact ih (fun l => nz (l + 1))
        (layerB ops d nhead ff p training (nz 0) lp x mem tm mm kT kM)

theorem batch_perm_td (σ σ' : Nat → Nat) (hinv : ∀ n, σ (σ' n) = n)
    (ops : ScalarOps) (dec : TransformerDecoder) (training : Bool)
    (nz : StackNoise) (tgt mem : Tensor3)
    (tm mm kT kM : Option (Nat → Nat → Bool)) :
    (TransformerDecoder.forward ops dec training (permNz σ nz) (permB3 σ tgt)
        (permB3 σ mem) tm mm (permKpm σ kT) (permKpm σ kM)).map (permB3 σ')
      = TransformerDecoder.forward ops dec training nz tgt mem tm mm kT kM := by
  unfold TransformerDecoder.forward
  by_cases h : tgt.n2 = dec.d_model ∧ mem.n2 = dec.d_model ∧ mem.n0 = tgt.n0
  · have h' : (permB3 σ tgt).n2 = dec.d_model ∧
        (permB3 σ mem).n2 = dec.d_model ∧
        (permB3 σ mem).n0 = (permB3 σ tgt).n0 := by simpa using h
    rw [if_pos h', if_pos h]
    simp only [Option.map_some']
    refine congrArg some ?_
    rw [applyLayers_perm ops dec.d_model dec.nhead dec.dim_feedforward
      dec.dropout training mem tm mm kT kM σ dec.layers nz tgt]
    exact permB3_inv σ σ' hinv _
  · have h' : ¬((permB3 σ tgt).n2 = dec.d_model ∧
        (permB3 σ mem).n2 = dec.d_model ∧
        (permB3 σ mem).n0 = (permB3 σ tgt).n0) := fun hc => h (by simpa using hc)
    rw [if_neg h', if_neg h]
    rfl

/-- C7: batch independence of both decoders.  Gathering the batch along
`σ`, running a forward pass (with correspondingly permuted key-padding
masks and dropout noise where present), and gathering the output along the
inverse `σ'` yields exactly the forward pass of the unpermuted input — for
the spatial decoder up to extensional tensor equality, for the sequence
decoder on the nose; failures are preserved in both directions. -/
theorem batch_independence (σ σ' : Nat → Nat) (hinv : ∀ n, σ (σ' n) = n) :
    (∀ (d : CNNDecoder) (x : Tensor3),
      optEqv eqv4 ((CNNDecoder.forward d (permB3 σ x)).map (permB4 σ'))
        (CNNDecoder.forward d x)) ∧
    (∀ (ops : ScalarOps) (dec : TransformerDecoder) (training : Bool)
      (nz : StackNoise) (tgt mem : Tensor3)
      (tm mm kT kM : Option (Nat → Nat → Bool)),
      (TransformerDecoder.forward ops dec training (permNz σ nz) (permB3 σ tgt)
          (permB3 σ mem) tm mm (permKpm σ kT) (permKpm σ kM)).map (permB3 σ')
        = TransformerDecoder.forward ops dec training nz tgt mem tm mm kT kM) :=
  ⟨batch_perm_cnn σ σ' hinv, batch_perm_td σ σ' hinv⟩

/-- The transposition of batch indices 0 and 1, its own inverse. -/
def swap01 : Nat → Nat := fun n => if n = 0 then 1 else if n = 1 then 0 else n

theorem batch_independence_witness :
    (∀ (d : CNNDecoder) (x : Tensor3),
      optEqv eqv4 ((CNNDecoder.forward d (permB3 swap01 x)).map (permB4 swap01))
        (CNNDecoder.forward d x)) ∧
    (∀ (ops : ScalarOps) (dec : TransformerDecoder) (training : Bool)
      (nz : StackNoise) (tgt mem : Tensor3)
      (tm mm kT kM : Option (Nat → Nat → Bool)),
      (TransformerDecoder.forward ops dec training (permNz swap01 nz)
          (permB3 swap01 tgt) (permB3 swap01 mem) tm mm (permKpm swap01 kT)
          (permKpm swap01 kM)).map (permB3 swap01)
        = TransformerDecoder.forward ops dec training nz tgt mem tm mm kT kM) :=
  batch_independence swap01 swap01 (fun n => by
    rcases n with _ | _ | k <;> rfl)

end StyleTransfer
